import Mathlib

/-!
Shallow embedding of the Yalla Habibi FastAPI service (`app.py`) and proofs
about its chat endpoint.

The embedding covers the pieces the verified properties need:
the static language table `LANG_MAP`, the multilingual map-trigger keyword
list `MAP_TRIGGER_WORDS`, the `Accept-Language` resolver
`get_lang_from_request`, and the `/api/chat` handler `chat`.  The external
text-generation call is modelled by a parameter producing an `ExtResult`
(text, no text, or a raised exception), and the handler returns the
response together with the number of external calls it performed.
-/

namespace YallaHabibi

/-- Character-wise model of Python `str.lower()`, exact on the alphabets that
occur in this application's data (ASCII, Latin-1 letters, Greek, basic
Cyrillic) and the identity on all other characters. -/
def pyCharLower (c : Char) : Char :=
  let n := c.toNat
  if 65 ≤ n ∧ n ≤ 90 then Char.ofNat (n + 32)
  else if (192 ≤ n ∧ n ≤ 222) ∧ n ≠ 215 then Char.ofNat (n + 32)
  else if (913 ≤ n ∧ n ≤ 939) ∧ n ≠ 930 then Char.ofNat (n + 32)
  else if 1040 ≤ n ∧ n ≤ 1071 then Char.ofNat (n + 32)
  else if n = 1025 then Char.ofNat 1105
  else c

/-- Model of Python `str.lower()` applied to a whole string. -/
def pyLower (s : String) : String := ⟨s.data.map pyCharLower⟩

/-- `subOf needle hay` holds when `needle` occurs as a contiguous sublist of
`hay`. -/
def subOf (needle : List Char) : List Char → Bool
  | [] => needle.isEmpty
  | c :: t => needle.isPrefixOf (c :: t) || subOf needle t

/-- Model of the Python substring test `needle in hay`. -/
def pyContains (hay needle : String) : Bool := subOf needle.data hay.data

/-- Model of Python `str.strip()`: remove whitespace from both ends. -/
def pyStrip (s : String) : String :=
  ⟨((s.data.dropWhile Char.isWhitespace).reverse.dropWhile Char.isWhitespace).reverse⟩

/-- Model of Python `str.startswith`. -/
def pyStartsWith (s p : String) : Bool := p.data.isPrefixOf s.data

/-- Model of `user_input.replace(" ", "+")` from the map-link construction;
the pattern is the single character `" "`, so the replacement is
character-wise. -/
def plusify (s : String) : String := ⟨s.data.map (fun c => if c = ' ' then '+' else c)⟩

/-- One value of the `LANG_MAP` table: display name, native name and support
level. -/
structure LangInfo where
  name : String
  native : String
  support : String
deriving DecidableEq

/-- The static language table `LANG_MAP` (app.py lines 95-142). -/
def LANG_MAP : List (String × LangInfo) := [
  ("en-US", ⟨"English", "English", "excellent"⟩),
  ("es-ES", ⟨"Spanish", "Español", "excellent"⟩),
  ("fr-FR", ⟨"French", "Français", "excellent"⟩),
  ("de-DE", ⟨"German", "Deutsch", "excellent"⟩),
  ("it-IT", ⟨"Italian", "Italiano", "excellent"⟩),
  ("pt-BR", ⟨"Portuguese", "Português", "excellent"⟩),
  ("ru-RU", ⟨"Russian", "Русский", "excellent"⟩),
  ("ja-JP", ⟨"Japanese", "日本語", "excellent"⟩),
  ("ko-KR", ⟨"Korean", "한국어", "excellent"⟩),
  ("zh-CN", ⟨"Chinese", "中文", "excellent"⟩),
  ("ar-SA", ⟨"Arabic", "العربية", "good"⟩),
  ("hi-IN", ⟨"Hindi", "हिंदी", "good"⟩),
  ("bn-BD", ⟨"Bengali", "বাংলা", "good"⟩),
  ("tr-TR", ⟨"Turkish", "Türkçe", "good"⟩),
  ("nl-NL", ⟨"Dutch", "Nederlands", "good"⟩),
  ("pl-PL", ⟨"Polish", "Polski", "good"⟩),
  ("sv-SE", ⟨"Swedish", "Svenska", "good"⟩),
  ("no-NO", ⟨"Norwegian", "Norsk", "good"⟩),
  ("da-DK", ⟨"Danish", "Dansk", "good"⟩),
  ("fi-FI", ⟨"Finnish", "Suomi", "good"⟩),
  ("el-GR", ⟨"Greek", "Ελληνικά", "good"⟩),
  ("cs-CZ", ⟨"Czech", "Čeština", "good"⟩),
  ("hu-HU", ⟨"Hungarian", "Magyar", "good"⟩),
  ("ro-RO", ⟨"Romanian", "Română", "good"⟩),
  ("uk-UA", ⟨"Ukrainian", "Українська", "good"⟩),
  ("id-ID", ⟨"Indonesian", "Bahasa Indonesia", "good"⟩),
  ("ms-MY", ⟨"Malay", "Bahasa Melayu", "good"⟩),
  ("th-TH", ⟨"Thai", "ไทย", "good"⟩),
  ("vi-VN", ⟨"Vietnamese", "Tiếng Việt", "good"⟩),
  ("ur-PK", ⟨"Urdu", "اردو", "limited"⟩),
  ("fa-IR", ⟨"Persian", "فارسی", "limited"⟩),
  ("he-IL", ⟨"Hebrew", "עברית", "limited"⟩),
  ("ta-IN", ⟨"Tamil", "தமிழ்", "limited"⟩),
  ("te-IN", ⟨"Telugu", "తెలుగు", "limited"⟩),
  ("ml-IN", ⟨"Malayalam", "മലയാളം", "limited"⟩),
  ("mr-IN", ⟨"Marathi", "मराठी", "limited"⟩),
  ("gu-IN", ⟨"Gujarati", "ગુજરાતી", "limited"⟩),
  ("kn-IN", ⟨"Kannada", "ಕನ್ನಡ", "limited"⟩),
  ("pa-IN", ⟨"Punjabi", "ਪੰਜਾਬੀ", "limited"⟩),
  ("sw-KE", ⟨"Swahili", "Kiswahili", "limited"⟩),
  ("am-ET", ⟨"Amharic", "አማርኛ", "limited"⟩)]

/-- The multilingual map-trigger keyword list `MAP_TRIGGER_WORDS`
(app.py lines 147-176). -/
def MAP_TRIGGER_WORDS : List String := [
  "find", "where", "map", "location", "direction", "navigate", "address",
  "route", "near", "nearby",
  "কোথায়", "মানচিত্র", "খুঁজুন", "ঠিকানা",
  "أين", "خريطة", "موقع", "عنوان",
  "कहाँ", "नक्शा", "स्थान",
  "dónde", "mapa", "ubicación",
  "où", "carte", "lieu",
  "wo", "karte", "ort",
  "کہاں", "نقشہ",
  "nerede", "harita",
  "dimana", "peta",
  "где", "карта",
  "どこ", "地図",
  "어디", "지도",
  "哪里", "地图"]

/-- The greeting table used on the empty-input branch of `chat`
(app.py lines 415-423). -/
def greetings : List (String × String) := [
  ("ar-SA", "مرحبا! اسألني شيئًا يا حبيبي."),
  ("bn-BD", "আসসালামু আলাইকুম! আমাকে কিছু জিজ্ঞাসা করুন।"),
  ("hi-IN", "नमस्ते! मुझसे कुछ पूछें।"),
  ("ur-PK", "السلام علیکم! مجھ سے کچھ پوچھیں۔"),
  ("es-ES", "¡Hola! Pregúntame algo."),
  ("fr-FR", "Bonjour! Posez-moi une question."),
  ("de-DE", "Hallo! Frag mich etwas.")]

/-- The canned error-message table used on the failure branch of `chat`
(app.py lines 496-501). -/
def error_messages : List (String × String) := [
  ("ar-SA", "مرحبا! حدث خطأ ما. يرجى المحاولة مرة أخرى يا حبيبي."),
  ("bn-BD", "দুঃখিত! কিছু ভুল হয়েছে। আবার চেষ্টা করুন।"),
  ("hi-IN", "क्षमा करें! कुछ गलत हो गया। कृपया पुनः प्रयास करें।"),
  ("ur-PK", "معذرت! کچھ غلط ہو گیا۔ دوبارہ کوشش کریں۔")]

/-- The priority list of `(short code, accepted header prefixes)` pairs used
by `get_lang_from_request` (app.py lines 206-221). -/
def lang_priorities : List (String × List String) := [
  ("bn", ["bn-bd", "bn"]), ("ar", ["ar-sa", "ar"]), ("hi", ["hi-in", "hi"]),
  ("es", ["es-es", "es"]), ("fr", ["fr-fr", "fr"]), ("de", ["de-de", "de"]),
  ("pt", ["pt-br", "pt"]), ("it", ["it-it", "it"]), ("ru", ["ru-ru", "ru"]),
  ("ja", ["ja-jp", "ja"]), ("ko", ["ko-kr", "ko"]), ("zh", ["zh-cn", "zh"]),
  ("tr", ["tr-tr", "tr"]), ("ur", ["ur-pk", "ur"]), ("fa", ["fa-ir", "fa"]),
  ("id", ["id-id", "id"]), ("ms", ["ms-my", "ms"]), ("th", ["th-th", "th"]),
  ("vi", ["vi-vn", "vi"]), ("nl", ["nl-nl", "nl"]), ("pl", ["pl-pl", "pl"]),
  ("sv", ["sv-se", "sv"]), ("no", ["no-no", "no"]), ("da", ["da-dk", "da"]),
  ("fi", ["fi-fi", "fi"]), ("el", ["el-gr", "el"]), ("he", ["he-il", "he"]),
  ("cs", ["cs-cz", "cs"]), ("hu", ["hu-hu", "hu"]), ("ro", ["ro-ro", "ro"]),
  ("uk", ["uk-ua", "uk"]), ("sw", ["sw-ke", "sw"]), ("am", ["am-et", "am"]),
  ("ta", ["ta-in", "ta"]), ("te", ["te-in", "te"]), ("ml", ["ml-in", "ml"]),
  ("mr", ["mr-in", "mr"]), ("gu", ["gu-in", "gu"]), ("kn", ["kn-in", "kn"]),
  ("pa", ["pa-in", "pa"])]

/-- `get_lang_from_request` (app.py lines 202-228): lower-case the
`Accept-Language` header (absent modelled as `none`, read as `""`), return
the short code of the first priority pair one of whose patterns is a prefix
of the header, and `"en"` when none matches. -/
def get_lang_from_request (header : Option String) : String :=
  let h := pyLower (header.getD "")
  match lang_priorities.find? (fun p => p.2.any (fun pat => pyStartsWith h pat)) with
  | some p => p.1
  | none => "en"

/-- Outcome of one call to the external text-generation service, as observed
by the handler: `text s` models a response whose `text` attribute is the
string `s`, `noText` models `getattr(response, "text", None)` yielding
`None`, and `raises msg` models the call raising an exception whose string
form is `msg`. -/
inductive ExtResult where
  | text (s : String)
  | noText
  | raises (msg : String)
deriving DecidableEq

/-- The JSON object returned by `/api/chat`.  Keys that appear only on some
branches of the handler are `Option`s, with `none` meaning the key is absent
from the returned dict. -/
structure ChatResponse where
  reply : String
  voice_lang : String
  map_link : Option String
  support_level : Option String := none
  detected_input_lang : Option (Option String) := none
  supported : Option Bool := none
  error : Option Bool := none
  error_message : Option String := none
deriving DecidableEq

/-- The translation-scenario system instruction (app.py lines 446-453). -/
def transInstruction (input_lang : String) (info : LangInfo) : String :=
  "You are Yalla Habibi, a warm Arabic AI host. " ++
  "The user spoke in " ++ input_lang ++ " but wants your response in " ++
  info.name ++ " (" ++ info.native ++ "). " ++
  "Greet briefly in Arabic, then respond naturally in " ++ info.name ++ ". " ++
  "If they\x27re asking for translation, translate accurately. " ++
  "End with \x27\x2d\x2d\x2d Wisdom:\x27 followed by a practical, culturally-appropriate tip. " ++
  "Keep responses clear and helpful."

/-- The same-language system instruction (app.py lines 456-463). -/
def sameInstruction (info : LangInfo) : String :=
  "You are Yalla Habibi, a warm, culturally-aware Arabic AI host. " ++
  "Respond naturally in " ++ info.name ++ " (" ++ info.native ++ "). " ++
  "Greet briefly in Arabic first if appropriate. " ++
  "Be helpful, friendly, and respectful of cultural nuances. " ++
  "End with \x27\x2d\x2d\x2d Wisdom:\x27 followed by a practical tip. " ++
  "Keep responses conversational and engaging."

/-- Choice of system instruction (app.py lines 444-463): the translation
framing is used when `input_lang` is truthy and differs from the resolved
preference. -/
def systemInstruction (il : Option String) (pref1 : String) (info : LangInfo) : String :=
  match il with
  | some s => if s ≠ "" ∧ s ≠ pref1 then transInstruction s info else sameInstruction info
  | none => sameInstruction info

/-- The canned failure response built by the `except` block
(app.py lines 493-509). -/
def errorResp (pref msg : String) : ChatResponse :=
  { reply := (List.lookup pref error_messages).getD
      "Marhaba! Something went wrong. Please try again, Habibi."
  , voice_lang := pref
  , map_link := none
  , error := some true
  , error_message := some msg }

/-- `pref if pref in LANG_MAP else "en-US"` — the locale resolution used at
app.py lines 427 and 433-435. -/
def resolvePref (pref : String) : String :=
  if (List.lookup pref LANG_MAP).isSome then pref else "en-US"

/-- The `/api/chat` handler (app.py lines 399-509).  `ext` is the external
text-generation call, given the assembled system instruction and the trimmed
user input; the second component of the result counts how many external
calls were made.  The `except Exception` block is modelled by mapping every
failure outcome (a raised exception, a missing text, or the falsy empty text
that makes the handler raise `HTTPException(502)`) to `errorResp`. -/
def chat (user_input pref : String) (input_lang : Option String)
    (ext : String → String → ExtResult) : ChatResponse × Nat :=
  if user_input = "" ∨ pyStrip user_input = "" then
    ({ reply := (List.lookup pref greetings).getD "Marhaba! Please ask me something, Habibi."
     , voice_lang := resolvePref pref
     , map_link := none
     , support_level := some (match List.lookup pref LANG_MAP with
         | some info => info.support
         | none => "unknown") }, 0)
  else
    match List.lookup (resolvePref pref) LANG_MAP with
    | none =>
        -- `LANG_MAP[pref]` would raise `KeyError`, caught by the except
        -- block before any external call; unreachable since `resolvePref`
        -- always lands on a key of the table
        (errorResp (resolvePref pref) ("KeyError: " ++ resolvePref pref), 0)
    | some info =>
        match ext (systemInstruction input_lang (resolvePref pref) info) (pyStrip user_input) with
        | ExtResult.raises msg => (errorResp (resolvePref pref) msg, 1)
        | ExtResult.noText => (errorResp (resolvePref pref) "502: Empty reply from model", 1)
        | ExtResult.text r =>
            if r = "" then (errorResp (resolvePref pref) "502: Empty reply from model", 1)
            else
              ({ reply := r
               , voice_lang := resolvePref pref
               , map_link :=
                   if MAP_TRIGGER_WORDS.any
                       (fun w => pyContains (pyLower user_input) (pyLower w)) then
                     some ("https://maps.google.com/maps?q=" ++ plusify user_input
                       ++ "&output=embed")
                   else none
               , support_level := some info.support
               , detected_input_lang := some input_lang
               , supported := some true }, 1)

/-- Looking a key up in a table all of whose values are non-empty, with a
non-empty fallback, yields a non-empty string. -/
theorem lookup_getD_ne_of_all {l : List (String × String)} {p d : String}
    (hl : ∀ x ∈ l, x.2 ≠ "") (hd : d ≠ "") :
    (List.lookup p l).getD d ≠ "" := by
  induction l with
  | nil => simpa [List.lookup] using hd
  | cons x t ih =>
      obtain ⟨k, v⟩ := x
      simp only [List.lookup]
      split
      · simpa using hl (k, v) (by simp)
      · exact ih fun y hy => hl y (List.mem_cons_of_mem _ hy)

/-- The resolved preference is always a key of `LANG_MAP`. -/
theorem resolvePref_isSome (p : String) :
    (List.lookup (resolvePref p) LANG_MAP).isSome = true := by
  unfold resolvePref
  split
  · assumption
  · decide

/-- A non-blank input falsifies the empty-input guard of `chat`. -/
theorem not_empty_cond {ui : String} (hui : pyStrip ui ≠ "") :
    ¬(ui = "" ∨ pyStrip ui = "") := by
  rintro (h | h)
  · subst h; exact hui rfl
  · exact hui h

/-- The canned failure response always carries a non-empty reply. -/
theorem errorResp_reply_ne (pref msg : String) : (errorResp pref msg).reply ≠ "" := by
  unfold errorResp
  exact lookup_getD_ne_of_all (by decide) (by decide)

/-- Unfolding of `chat` on the empty-input branch. -/
theorem chat_empty_eq (ui pref : String) (il : Option String)
    (ext : String → String → ExtResult) (hui : pyStrip ui = "") :
    chat ui pref il ext
      = ({ reply := (List.lookup pref greetings).getD "Marhaba! Please ask me something, Habibi."
         , voice_lang := resolvePref pref
         , map_link := none
         , support_level := some (match List.lookup pref LANG_MAP with
             | some info => info.support
             | none => "unknown") }, 0) := by
  unfold chat
  rw [if_pos (Or.inr hui)]

/-- Unfolding of `chat` when the external call raises. -/
theorem chat_raises_eq (ui pref : String) (il : Option String) (m : String)
    (hui : pyStrip ui ≠ "") :
    chat ui pref il (fun _ _ => ExtResult.raises m)
      = (errorResp (resolvePref pref) m, 1) := by
  obtain ⟨info, hinfo⟩ := Option.isSome_iff_exists.mp (resolvePref_isSome pref)
  unfold chat
  rw [if_neg (not_empty_cond hui), hinfo]

/-- Unfolding of `chat` when the external call yields no text attribute. -/
theorem chat_noText_eq (ui pref : String) (il : Option String)
    (hui : pyStrip ui ≠ "") :
    chat ui pref il (fun _ _ => ExtResult.noText)
      = (errorResp (resolvePref pref) "502: Empty reply from model", 1) := by
  obtain ⟨info, hinfo⟩ := Option.isSome_iff_exists.mp (resolvePref_isSome pref)
  unfold chat
  rw [if_neg (not_empty_cond hui), hinfo]

/-- Unfolding of `chat` when the external call yields the empty text. -/
theorem chat_emptyText_eq (ui pref : String) (il : Option String)
    (hui : pyStrip ui ≠ "") :
    chat ui pref il (fun _ _ => ExtResult.text "")
      = (errorResp (resolvePref pref) "502: Empty reply from model", 1) := by
  obtain ⟨info, hinfo⟩ := Option.isSome_iff_exists.mp (resolvePref_isSome pref)
  unfold chat
  rw [if_neg (not_empty_cond hui), hinfo]
  dsimp only
  rw [if_pos rfl]

/-- Unfolding of `chat` on the success branch: the external call yields a
non-empty text. -/
theorem chat_success_eq (ui pref : String) (il : Option String) (r : String)
    (info : LangInfo) (hinfo : List.lookup (resolvePref pref) LANG_MAP = some info)
    (hr : r ≠ "") (hui : pyStrip ui ≠ "") :
    chat ui pref il (fun _ _ => ExtResult.text r)
      = ({ reply := r
         , voice_lang := resolvePref pref
         , map_link :=
             if MAP_TRIGGER_WORDS.any
                 (fun w => pyContains (pyLower ui) (pyLower w)) then
               some ("https://maps.google.com/maps?q=" ++ plusify ui ++ "&output=embed")
             else none
         , support_level := some info.support
         , detected_input_lang := some il
         , supported := some true }, 1) := by
  unfold chat
  rw [if_neg (not_empty_cond hui), hinfo]
  dsimp only
  rw [if_neg hr]

/-- In every branch of `chat`, the returned `voice_lang` is the resolved
preference. -/
theorem chat_voice_lang_eq (ui pref : String) (il : Option String)
    (ext : String → String → ExtResult) :
    (chat ui pref il ext).1.voice_lang = resolvePref pref := by
  by_cases hui : pyStrip ui = ""
  · rw [chat_empty_eq ui pref il ext hui]
  · obtain ⟨info, hinfo⟩ := Option.isSome_iff_exists.mp (resolvePref_isSome pref)
    unfold chat
    rw [if_neg (not_empty_cond hui), hinfo]
    dsimp only
    cases ext (systemInstruction il (resolvePref pref) info) (pyStrip ui) with
    | text r =>
        dsimp only
        by_cases hr : r = ""
        · subst hr; rfl
        · rw [if_neg hr]
    | noText => rfl
    | raises m => rfl

/-- In every branch of `chat`, the returned reply is non-empty. -/
theorem chat_reply_ne_all (ui pref : String) (il : Option String)
    (ext : String → String → ExtResult) :
    (chat ui pref il ext).1.reply ≠ "" := by
  by_cases hui : pyStrip ui = ""
  · rw [chat_empty_eq ui pref il ext hui]
    exact lookup_getD_ne_of_all (by decide) (by decide)
  · obtain ⟨info, hinfo⟩ := Option.isSome_iff_exists.mp (resolvePref_isSome pref)
    unfold chat
    rw [if_neg (not_empty_cond hui), hinfo]
    dsimp only
    cases ext (systemInstruction il (resolvePref pref) info) (pyStrip ui) with
    | text r =>
        dsimp only
        by_cases hr : r = ""
        · subst hr
          exact errorResp_reply_ne _ _
        · rw [if_neg hr]
          exact hr
    | noText => exact errorResp_reply_ne _ _
    | raises m => exact errorResp_reply_ne _ _

/-- On the success branch (non-blank input, external call returning a
non-empty text), the returned map link is non-null exactly when some trigger
keyword occurs, case-insensitively, as a substring of the raw input. -/
theorem map_link_success_iff (ui pref : String) (il : Option String) (r : String)
    (hr : r ≠ "") (hui : pyStrip ui ≠ "") :
    (chat ui pref il (fun _ _ => ExtResult.text r)).1.map_link ≠ none
      ↔ ∃ w ∈ MAP_TRIGGER_WORDS, pyContains (pyLower ui) (pyLower w) = true := by
  obtain ⟨info, hinfo⟩ := Option.isSome_iff_exists.mp (resolvePref_isSome pref)
  rw [chat_success_eq ui pref il r info hinfo hr hui]
  dsimp only
  by_cases hc : (MAP_TRIGGER_WORDS.any fun w => pyContains (pyLower ui) (pyLower w)) = true
  · rw [if_pos hc]
    simp only [List.any_eq_true] at hc
    simp [hc]
  · rw [if_neg hc]
    simp only [List.any_eq_true] at hc
    simp [hc]

/-- C1: for every input and every behaviour of the external call, the chat
handler returns a structured response with a non-empty reply (the embedded
handler is a total function, so no exception reaches the caller), and a
failing external call on a non-blank input yields the error flag set, a
non-empty reply, and a null map link. -/
theorem chat_error_branch_structured (ui pref : String) (il : Option String)
    (m : String) (hui : pyStrip ui ≠ "") :
    (∀ u p : String, ∀ l : Option String, ∀ e : String → String → ExtResult,
        (chat u p l e).1.reply ≠ "")
    ∧ (chat ui pref il (fun _ _ => ExtResult.raises m)).1.error = some true
    ∧ (chat ui pref il (fun _ _ => ExtResult.raises m)).1.reply ≠ ""
    ∧ (chat ui pref il (fun _ _ => ExtResult.raises m)).1.map_link = none := by
  refine ⟨chat_reply_ne_all, ?_, ?_, ?_⟩
  · rw [chat_raises_eq ui pref il m hui]
    rfl
  · rw [chat_raises_eq ui pref il m hui]
    exact errorResp_reply_ne _ _
  · rw [chat_raises_eq ui pref il m hui]
    rfl

/-- Witness for C1: concrete non-blank input with a raising external call. -/
theorem chat_error_branch_structured_witness :
    pyStrip "hello" ≠ ""
    ∧ ((∀ u p : String, ∀ l : Option String, ∀ e : String → String → ExtResult,
          (chat u p l e).1.reply ≠ "")
       ∧ (chat "hello" "en-US" none (fun _ _ => ExtResult.raises "boom")).1.error = some true
       ∧ (chat "hello" "en-US" none (fun _ _ => ExtResult.raises "boom")).1.reply ≠ ""
       ∧ (chat "hello" "en-US" none (fun _ _ => ExtResult.raises "boom")).1.map_link = none) :=
  ⟨by decide, chat_error_branch_structured "hello" "en-US" none "boom" (by decide)⟩

/-- C2 counterexample: the input "where is it" contains the trigger keyword
"where", yet when the external call fails the handler returns a null
map_link, so the non-null-iff-trigger-matched equivalence fails on the
failure branch. -/
theorem map_link_iff_fails_on_error_branch :
    (∃ w ∈ MAP_TRIGGER_WORDS, pyContains (pyLower "where is it") (pyLower w) = true)
    ∧ (chat "where is it" "en-US" none
        (fun _ _ => ExtResult.raises "network down")).1.map_link = none :=
  ⟨⟨"where", by decide, by decide⟩, by decide⟩

/-- C2 (amended): on the success branch the map link is non-null iff a
trigger keyword occurs case-insensitively in the raw input; the failure and
empty-input branches always return a null map link; "WHERE is it" and
"where is it" yield a non-null map link and "tell me a joke" a null one. -/
theorem map_link_iff_on_success (ui pref : String) (il : Option String) (r m : String)
    (hr : r ≠ "") (hui : pyStrip ui ≠ "") :
    ((chat ui pref il (fun _ _ => ExtResult.text r)).1.map_link ≠ none
      ↔ ∃ w ∈ MAP_TRIGGER_WORDS, pyContains (pyLower ui) (pyLower w) = true)
    ∧ (chat ui pref il (fun _ _ => ExtResult.raises m)).1.map_link = none
    ∧ (chat "" pref il (fun _ _ => ExtResult.text r)).1.map_link = none
    ∧ (chat "WHERE is it" pref il (fun _ _ => ExtResult.text r)).1.map_link ≠ none
    ∧ (chat "where is it" pref il (fun _ _ => ExtResult.text r)).1.map_link ≠ none
    ∧ (chat "tell me a joke" pref il (fun _ _ => ExtResult.text r)).1.map_link = none := by
  refine ⟨map_link_success_iff ui pref il r hr hui, ?_, ?_, ?_, ?_, ?_⟩
  · rw [chat_raises_eq ui pref il m hui]
    rfl
  · rw [chat_empty_eq "" pref il _ (by decide)]
  · exact (map_link_success_iff "WHERE is it" pref il r hr (by decide)).mpr
      ⟨"where", by decide, by decide⟩
  · exact (map_link_success_iff "where is it" pref il r hr (by decide)).mpr
      ⟨"where", by decide, by decide⟩
  · by_contra hne
    exact absurd ((map_link_success_iff "tell me a joke" pref il r hr (by decide)).mp hne)
      (by decide)

/-- Witness for the amended C2 at concrete inputs. -/
theorem map_link_iff_on_success_witness :
    ("Hello" : String) ≠ "" ∧ pyStrip "where is it" ≠ ""
    ∧ (((chat "where is it" "en-US" none
          (fun _ _ => ExtResult.text "Hello")).1.map_link ≠ none
        ↔ ∃ w ∈ MAP_TRIGGER_WORDS,
            pyContains (pyLower "where is it") (pyLower w) = true)
       ∧ (chat "where is it" "en-US" none
            (fun _ _ => ExtResult.raises "boom")).1.map_link = none
       ∧ (chat "" "en-US" none (fun _ _ => ExtResult.text "Hello")).1.map_link = none
       ∧ (chat "WHERE is it" "en-US" none
            (fun _ _ => ExtResult.text "Hello")).1.map_link ≠ none
       ∧ (chat "where is it" "en-US" none
            (fun _ _ => ExtResult.text "Hello")).1.map_link ≠ none
       ∧ (chat "tell me a joke" "en-US" none
            (fun _ _ => ExtResult.text "Hello")).1.map_link = none) :=
  ⟨by decide, by decide,
    map_link_iff_on_success "where is it" "en-US" none "Hello" "boom"
      (by decide) (by decide)⟩

/-- C3: empty or all-whitespace input short-circuits with a non-empty canned
reply, a null map link and zero external calls, and the whitespace-only case
returns exactly the empty-string response for the same pref, whatever the
external behaviour. -/
theorem chat_empty_input_short_circuit (ui pref : String) (il : Option String)
    (ext ext2 : String → String → ExtResult) (hui : pyStrip ui = "") :
    (chat ui pref il ext).1.reply ≠ ""
    ∧ (chat ui pref il ext).1.map_link = none
    ∧ (chat ui pref il ext).2 = 0
    ∧ chat ui pref il ext = chat "" pref il ext2 := by
  refine ⟨chat_reply_ne_all ui pref il ext, ?_, ?_, ?_⟩
  · rw [chat_empty_eq ui pref il ext hui]
  · rw [chat_empty_eq ui pref il ext hui]
  · rw [chat_empty_eq ui pref il ext hui, chat_empty_eq "" pref il ext2 (by decide)]

/-- Witness for C3: two spaces with pref "ar-SA" and two different external
doubles, neither of which is consulted. -/
theorem chat_empty_input_short_circuit_witness :
    pyStrip "  " = ""
    ∧ ((chat "  " "ar-SA" none (fun _ _ => ExtResult.raises "boom")).1.reply ≠ ""
       ∧ (chat "  " "ar-SA" none (fun _ _ => ExtResult.raises "boom")).1.map_link = none
       ∧ (chat "  " "ar-SA" none (fun _ _ => ExtResult.raises "boom")).2 = 0
       ∧ chat "  " "ar-SA" none (fun _ _ => ExtResult.raises "boom")
           = chat "" "ar-SA" none (fun _ _ => ExtResult.text "Hello")) :=
  ⟨by decide, chat_empty_input_short_circuit "  " "ar-SA" none
    (fun _ _ => ExtResult.raises "boom") (fun _ _ => ExtResult.text "Hello") (by decide)⟩

/-- C4: in every branch of the handler, voice_lang equals pref when pref is
a key of LANG_MAP and the fixed default "en-US" otherwise — never the
invalid input. -/
theorem chat_voice_lang_resolved (ui pref : String) (il : Option String)
    (ext : String → String → ExtResult) :
    (chat ui pref il ext).1.voice_lang
      = if (List.lookup pref LANG_MAP).isSome then pref else "en-US" :=
  chat_voice_lang_eq ui pref il ext

/-- C5 counterexample: two external failures differing only in the exception
message produce responses that differ — in the error_message field, which
carries the stringified exception to the caller. -/
theorem error_message_leaks_exception :
    (chat "hi" "en-US" none (fun _ _ => ExtResult.raises "error detail A")).1
      ≠ (chat "hi" "en-US" none (fun _ _ => ExtResult.raises "error detail B")).1
    ∧ (chat "hi" "en-US" none (fun _ _ => ExtResult.raises "error detail A")).1.error_message
      = some "error detail A" :=
  ⟨by decide, by decide⟩

/-- C5 (amended): on the failure branch the reply, voice_lang and map_link
fields are independent of the exception, but the response also carries an
error_message field equal to the stringified exception, so error detail does
reach the caller beyond the boolean flag. -/
theorem chat_error_fields_independent_except_message (ui pref : String)
    (il : Option String) (m m2 : String) (hui : pyStrip ui ≠ "") :
    ((chat ui pref il (fun _ _ => ExtResult.raises m)).1.reply
       = (chat ui pref il (fun _ _ => ExtResult.raises m2)).1.reply)
    ∧ ((chat ui pref il (fun _ _ => ExtResult.raises m)).1.voice_lang
       = (chat ui pref il (fun _ _ => ExtResult.raises m2)).1.voice_lang)
    ∧ ((chat ui pref il (fun _ _ => ExtResult.raises m)).1.map_link
       = (chat ui pref il (fun _ _ => ExtResult.raises m2)).1.map_link)
    ∧ (chat ui pref il (fun _ _ => ExtResult.raises m)).1.error = some true
    ∧ (chat ui pref il (fun _ _ => ExtResult.raises m)).1.error_message = some m := by
  rw [chat_raises_eq ui pref il m hui, chat_raises_eq ui pref il m2 hui]
  exact ⟨rfl, rfl, rfl, rfl, rfl⟩

/-- Witness for the amended C5 at two concrete exception messages. -/
theorem chat_error_fields_independent_except_message_witness :
    pyStrip "hi" ≠ ""
    ∧ (((chat "hi" "en-US" none (fun _ _ => ExtResult.raises "msg one")).1.reply
         = (chat "hi" "en-US" none (fun _ _ => ExtResult.raises "msg two")).1.reply)
       ∧ ((chat "hi" "en-US" none (fun _ _ => ExtResult.raises "msg one")).1.voice_lang
         = (chat "hi" "en-US" none (fun _ _ => ExtResult.raises "msg two")).1.voice_lang)
       ∧ ((chat "hi" "en-US" none (fun _ _ => ExtResult.raises "msg one")).1.map_link
         = (chat "hi" "en-US" none (fun _ _ => ExtResult.raises "msg two")).1.map_link)
       ∧ (chat "hi" "en-US" none (fun _ _ => ExtResult.raises "msg one")).1.error = some true
       ∧ (chat "hi" "en-US" none
            (fun _ _ => ExtResult.raises "msg one")).1.error_message = some "msg one") :=
  ⟨by decide, chat_error_fields_independent_except_message "hi" "en-US" none
    "msg one" "msg two" (by decide)⟩

/-- C6 counterexample: with pref = "auto" (the sentinel, not a table key) and
a detected input locale "bn-BD" that IS a table key, the handler still
answers with voice_lang "en-US": the detected locale is never used as the
response locale. -/
theorem detected_locale_not_used_for_voice_lang :
    (List.lookup "bn-BD" LANG_MAP).isSome = true
    ∧ (chat "hello" "auto" (some "bn-BD")
        (fun _ _ => ExtResult.text "Hi there")).1.voice_lang = "en-US"
    ∧ (chat "hello" "auto" (some "bn-BD")
        (fun _ _ => ExtResult.text "Hi there")).1.voice_lang ≠ "bn-BD" :=
  ⟨by decide, by decide, by decide⟩

/-- C6 (amended): the response locale is always the preferred locale resolved
against the table (default "en-US" on a miss); the detected input locale
never affects voice_lang — it only selects the translation framing of the
system instruction. -/
theorem chat_voice_lang_independent_of_input_lang (ui pref : String)
    (il il2 : Option String) (ext : String → String → ExtResult) :
    (chat ui pref il ext).1.voice_lang = (chat ui pref il2 ext).1.voice_lang
    ∧ (chat ui "auto" (some "bn-BD") ext).1.voice_lang = "en-US" := by
  refine ⟨?_, ?_⟩
  · rw [chat_voice_lang_eq, chat_voice_lang_eq]
  · rw [chat_voice_lang_eq]
    decide

/-- C7 counterexample: a whitespace-only model text — empty after trimming —
is returned verbatim as the reply with no error key, not replaced by a
canned reply. -/
theorem whitespace_model_text_returned_verbatim :
    pyStrip " " = ""
    ∧ (chat "hi" "en-US" none (fun _ _ => ExtResult.text " ")).1.reply = " "
    ∧ (chat "hi" "en-US" none (fun _ _ => ExtResult.text " ")).1.error = none :=
  ⟨by decide, by decide, by decide⟩

/-- C7 (amended): only a missing text or the exactly-empty text sends the
handler to the canned error path (flag set, non-empty canned reply); any
non-empty text — whitespace-only included — is returned verbatim. -/
theorem chat_empty_model_text_canned (ui pref : String) (il : Option String)
    (r : String) (hui : pyStrip ui ≠ "") (hr : r ≠ "") :
    (chat ui pref il (fun _ _ => ExtResult.text "")).1.error = some true
    ∧ (chat ui pref il (fun _ _ => ExtResult.text "")).1.reply ≠ ""
    ∧ (chat ui pref il (fun _ _ => ExtResult.noText)).1.error = some true
    ∧ (chat ui pref il (fun _ _ => ExtResult.text r)).1.reply = r := by
  obtain ⟨info, hinfo⟩ := Option.isSome_iff_exists.mp (resolvePref_isSome pref)
  refine ⟨?_, ?_, ?_, ?_⟩
  · rw [chat_emptyText_eq ui pref il hui]
    rfl
  · rw [chat_emptyText_eq ui pref il hui]
    exact errorResp_reply_ne _ _
  · rw [chat_noText_eq ui pref il hui]
    rfl
  · rw [chat_success_eq ui pref il r info hinfo hr hui]

/-- Witness for the amended C7 at concrete inputs. -/
theorem chat_empty_model_text_canned_witness :
    pyStrip "hi" ≠ "" ∧ ("Hello" : String) ≠ ""
    ∧ ((chat "hi" "en-US" none (fun _ _ => ExtResult.text "")).1.error = some true
       ∧ (chat "hi" "en-US" none (fun _ _ => ExtResult.text "")).1.reply ≠ ""
       ∧ (chat "hi" "en-US" none (fun _ _ => ExtResult.noText)).1.error = some true
       ∧ (chat "hi" "en-US" none (fun _ _ => ExtResult.text "Hello")).1.reply = "Hello") :=
  ⟨by decide, by decide,
    chat_empty_model_text_canned "hi" "en-US" none "Hello" (by decide) (by decide)⟩

/-- C8: get_lang_from_request lower-cases the header and prefix-matches the
ordered priority list, returning the default "en" when no pattern is a
prefix of the header; "bn-BD,en;q=0.8" resolves to "bn" and "xx-XX" to
"en". -/
theorem get_lang_prefix_resolution (h : String)
    (hnm : ∀ p ∈ lang_priorities, ∀ pat ∈ p.2, pyStartsWith (pyLower h) pat = false) :
    get_lang_from_request (some h) = "en"
    ∧ get_lang_from_request (some "bn-BD,en;q=0.8") = "bn"
    ∧ get_lang_from_request (some "xx-XX") = "en" := by
  refine ⟨?_, by decide, by decide⟩
  unfold get_lang_from_request
  simp only [Option.getD_some]
  have hn : lang_priorities.find?
      (fun p => p.2.any (fun pat => pyStartsWith (pyLower h) pat)) = none := by
    rw [List.find?_eq_none]
    intro p hp hany
    simp only [List.any_eq_true] at hany
    obtain ⟨pat, hpat, hsw⟩ := hany
    rw [hnm p hp pat hpat] at hsw
    exact absurd hsw (by simp)
  rw [hn]

/-- Witness for C8: the header "xx-XX" matches no pattern. -/
theorem get_lang_prefix_resolution_witness :
    (∀ p ∈ lang_priorities, ∀ pat ∈ p.2,
        pyStartsWith (pyLower "xx-XX") pat = false)
    ∧ (get_lang_from_request (some "xx-XX") = "en"
       ∧ get_lang_from_request (some "bn-BD,en;q=0.8") = "bn"
       ∧ get_lang_from_request (some "xx-XX") = "en") :=
  ⟨by decide, get_lang_prefix_resolution "xx-XX" (by decide)⟩

/-- C9: on the success branch with a matching trigger keyword, map_link is
the map-service URL embedding the raw input with spaces replaced by plus
characters; with the external double returning "Hello", input
"find the museum" and pref "en-US" the reply is "Hello" and the map link
contains the substring "q=find+the+museum". -/
theorem chat_map_link_url_on_trigger (ui pref : String) (il : Option String)
    (r : String) (hr : r ≠ "") (hui : pyStrip ui ≠ "")
    (hw : ∃ w ∈ MAP_TRIGGER_WORDS, pyContains (pyLower ui) (pyLower w) = true) :
    (chat ui pref il (fun _ _ => ExtResult.text r)).1.map_link
      = some ("https://maps.google.com/maps?q=" ++ plusify ui ++ "&output=embed")
    ∧ (chat "find the museum" "en-US" none
        (fun _ _ => ExtResult.text "Hello")).1.reply = "Hello"
    ∧ pyContains
        (((chat "find the museum" "en-US" none
            (fun _ _ => ExtResult.text "Hello")).1.map_link).getD "")
        "q=find+the+museum" = true := by
  obtain ⟨info, hinfo⟩ := Option.isSome_iff_exists.mp (resolvePref_isSome pref)
  refine ⟨?_, by decide, by decide⟩
  rw [chat_success_eq ui pref il r info hinfo hr hui]
  have hc : (MAP_TRIGGER_WORDS.any fun w => pyContains (pyLower ui) (pyLower w)) = true := by
    simp only [List.any_eq_true]
    exact hw
  dsimp only
  rw [if_pos hc]

/-- Witness for C9 at the concrete spec input. -/
theorem chat_map_link_url_on_trigger_witness :
    ("Hello" : String) ≠ "" ∧ pyStrip "find the museum" ≠ ""
    ∧ (∃ w ∈ MAP_TRIGGER_WORDS,
        pyContains (pyLower "find the museum") (pyLower w) = true)
    ∧ ((chat "find the museum" "en-US" none
          (fun _ _ => ExtResult.text "Hello")).1.map_link
        = some ("https://maps.google.com/maps?q=" ++ plusify "find the museum"
            ++ "&output=embed")
       ∧ (chat "find the museum" "en-US" none
            (fun _ _ => ExtResult.text "Hello")).1.reply = "Hello"
       ∧ pyContains
           (((chat "find the museum" "en-US" none
               (fun _ _ => ExtResult.text "Hello")).1.map_link).getD "")
           "q=find+the+museum" = true) :=
  ⟨by decide, by decide, ⟨"find", by decide, by decide⟩,
    chat_map_link_url_on_trigger "find the museum" "en-US" none "Hello"
      (by decide) (by decide) ⟨"find", by decide, by decide⟩⟩

/-- C10: trigger detection is plain substring containment with no word
boundaries: any input whose lower-cased text contains a trigger word as a
substring gets a map link on the success branch; in particular "work"
contains the German trigger "wo" and yields a non-null map link. -/
theorem chat_trigger_substring_no_word_boundary (ui pref : String)
    (il : Option String) (r : String) (hr : r ≠ "") (hui : pyStrip ui ≠ "")
    (hw : ∃ w ∈ MAP_TRIGGER_WORDS, pyContains (pyLower ui) (pyLower w) = true) :
    (chat ui pref il (fun _ _ => ExtResult.text r)).1.map_link ≠ none
    ∧ "wo" ∈ MAP_TRIGGER_WORDS
    ∧ pyContains (pyLower "work") (pyLower "wo") = true
    ∧ (chat "work" pref il (fun _ _ => ExtResult.text r)).1.map_link ≠ none := by
  refine ⟨?_, by decide, by decide, ?_⟩
  · exact (map_link_success_iff ui pref il r hr hui).mpr hw
  · exact (map_link_success_iff "work" pref il r hr (by decide)).mpr
      ⟨"wo", by decide, by decide⟩

/-- Witness for C10 at the concrete input "work". -/
theorem chat_trigger_substring_no_word_boundary_witness :
    ("Hello" : String) ≠ "" ∧ pyStrip "work" ≠ ""
    ∧ (∃ w ∈ MAP_TRIGGER_WORDS, pyContains (pyLower "work") (pyLower w) = true)
    ∧ ((chat "work" "en-US" none (fun _ _ => ExtResult.text "Hello")).1.map_link ≠ none
       ∧ "wo" ∈ MAP_TRIGGER_WORDS
       ∧ pyContains (pyLower "work") (pyLower "wo") = true
       ∧ (chat "work" "en-US" none (fun _ _ => ExtResult.text "Hello")).1.map_link ≠ none) :=
  ⟨by decide, by decide, ⟨"wo", by decide, by decide⟩,
    chat_trigger_substring_no_word_boundary "work" "en-US" none "Hello"
      (by decide) (by decide) ⟨"wo", by decide, by decide⟩⟩

end YallaHabibi
